import Mathlib

/-!
Verification of the extraction-and-matching pipeline of the Angebot Pro app
(src/app.py).  The Python code is shallowly embedded: Python floats are
modelled as rationals (every numeric literal and every comparison appearing
in the verified properties is exact in both models), Python strings as Lean
strings (working on their character lists), pandas NaN / absent values as
Option, and the external fuzzy-similarity scorer (thefuzz
partial_token_sort_ratio) as an explicit function parameter, since it is a
third-party collaborator outside the repository.  Fallible Python code
(try/except) is modelled with Option.
-/

/-! ## Character and string utilities (Python semantics) -/

/-- Character equality through code points (reduces well in the kernel). -/
def chEq (a b : Char) : Bool :=
  a.toNat = b.toNat

/-- Python whitespace test for the ASCII whitespace characters; the texts
handled by the pipeline contain no exotic Unicode spaces. -/
def pyIsSpace (c : Char) : Bool :=
  c.toNat = 32 || c.toNat = 9 || c.toNat = 10 || c.toNat = 13 ||
    c.toNat = 11 || c.toNat = 12

/-- ASCII decimal digit, as matched by the digit class of the patterns in
src/app.py on the documents handled. -/
def isDigitCh (c : Char) : Bool :=
  48 ≤ c.toNat && c.toNat ≤ 57

/-- Python str.strip on a character list: drop whitespace at both ends. -/
def pyStrip (cs : List Char) : List Char :=
  ((cs.dropWhile pyIsSpace).reverse.dropWhile pyIsSpace).reverse

/-- Python substring containment (the `in` operator on str). -/
def containsSub (needle : List Char) : List Char → Bool
  | [] => needle.isEmpty
  | c :: rest => needle.isPrefixOf (c :: rest) || containsSub needle rest

/-- Split off the maximal leading digit run. -/
def splitDigits (cs : List Char) : List Char × List Char :=
  (cs.takeWhile isDigitCh, cs.dropWhile isDigitCh)

/-- Numeric value of a digit run. -/
def digitsVal (ds : List Char) : Nat :=
  ds.foldl (fun a c => 10 * a + (c.toNat - 48)) 0

/-! ## Python float() on decimal strings

Model of Python float() restricted to finite decimal literals with optional
sign and exponent (the only shapes produced by the code paths verified
here; "inf"/"nan" spellings and digit-group underscores never occur in
them).  Returns none where Python raises ValueError. -/

/-- Parse the optional exponent suffix of a float literal and require end of
input; yields the signed exponent. -/
def parseExpPart : List Char → Option Int
  | [] => some 0
  | c :: rest =>
    if chEq c 'e' || chEq c 'E' then
      let (esgn, rest1) :=
        match rest with
        | '+' :: r => ((1 : Int), r)
        | '-' :: r => ((-1 : Int), r)
        | r => ((1 : Int), r)
      let (eds, rest2) := splitDigits rest1
      if eds.isEmpty || !rest2.isEmpty then none
      else some (esgn * (digitsVal eds : Int))
    else none

/-- The unsigned part of a float literal after the optional sign: integer
digits, optional dot and fraction digits, optional exponent; a bare "." (or
nothing) is invalid.  The rational value is assembled with mkRat over
natural-number arithmetic only. -/
def pyFloatMag (t1 : List Char) : Option ℚ :=
  let ip := t1.takeWhile isDigitCh
  let r1 := t1.dropWhile isDigitCh
  let fp := match r1 with | '.' :: r => r.takeWhile isDigitCh | _ => []
  let r2 := match r1 with | '.' :: r => r.dropWhile isDigitCh | r => r
  if ip.isEmpty && fp.isEmpty then none
  else
    match parseExpPart r2 with
    | none => none
    | some e =>
      some (mkRat ((digitsVal ip * 10 ^ fp.length + digitsVal fp) * 10 ^ e.toNat : Nat)
        (10 ^ (fp.length + (-e).toNat)))

/-- Python float() on a character list: strip, optional sign, magnitude. -/
def pyFloatChars (cs : List Char) : Option ℚ :=
  match pyStrip cs with
  | '+' :: r => pyFloatMag r
  | '-' :: r => (pyFloatMag r).map Neg.neg
  | r => pyFloatMag r

/-- Python float() on a string. -/
def pyFloatStr (s : String) : Option ℚ :=
  pyFloatChars s.data

/-! ## JSON values

Model of the decoded JSON responses of the AI collaborator (the JSON text
parser itself is the external json library; the pipeline consumes its
output).  Numbers are rationals; Python bool is an int subclass, so jbool
coerces under float(). -/

inductive JVal where
  | jnull : JVal
  | jbool : Bool → JVal
  | jnum : ℚ → JVal
  | jstr : String → JVal
  | jarr : List JVal → JVal
  | jobj : List (String × JVal) → JVal

/-- Python truthiness of a decoded JSON value. -/
def jTruthy : JVal → Bool
  | .jnull => false
  | .jbool b => b
  | .jnum q => decide (q ≠ 0)
  | .jstr s => !s.isEmpty
  | .jarr xs => !xs.isEmpty
  | .jobj fs => !fs.isEmpty

/-- Python dict.get with a default, on the field list of a JSON object. -/
def jGet (fs : List (String × JVal)) (k : String) (dflt : JVal) : JVal :=
  match fs.find? (fun p => p.1 == k) with
  | some p => p.2
  | none => dflt

/-- Python `x or y` on JSON values: the first operand if truthy, else the
second. -/
def jOr (a b : JVal) : JVal :=
  if jTruthy a then a else b

/-- Python float() applied to a decoded JSON value: numbers pass through,
strings are parsed, bools coerce (int subclass); anything else raises
(none). -/
def pyFloatJ : JVal → Option ℚ
  | .jnum q => some q
  | .jstr s => pyFloatStr s
  | .jbool b => some (if b then 1 else 0)
  | _ => none

/-- Does the value hold an array? (the isinstance(v, list) test). -/
def jIsArr : JVal → Bool
  | .jarr _ => true
  | _ => false

/-! ## AI structured-item extraction (analyze_with_azure_ai, src/app.py:216-298) -/

/-- A normalized extracted line item as built by analyze_with_azure_ai:
the oz / description / unit fields keep whatever JSON value the collaborator
sent, quantity is always coerced to float. -/
structure DynItem where
  oz : JVal
  description : JVal
  quantity : ℚ
  unit : JVal

/-- One entry of the processing log. -/
structure LogEntry where
  level : String
  message : String
deriving DecidableEq

/-- Normalization of one raw item dict (src/app.py:272-279): fields default
to ''/0, the German and English key spellings are merged with Python or,
and quantity is float-coerced with 0.0 on failure. -/
def normalizeItem (fs : List (String × JVal)) : DynItem :=
  { oz := jGet fs "oz" (.jstr "")
    description := jOr (jGet fs "text" (.jstr "")) (jGet fs "description" (.jstr ""))
    quantity := (pyFloatJ (jOr (jGet fs "menge" (.jnum 0)) (jGet fs "quantity" (.jnum 0)))).getD 0
    unit := jOr (jGet fs "einheit" (.jstr "")) (jGet fs "unit" (.jstr "")) }

/-- Shape detection for one decoded page response (src/app.py:261-269):
a top-level array is taken as is; for a dict, the first list-valued field
wins, else a dict bearing an "oz" key is one degenerate item; anything else
yields no items. -/
def jvalItems : JVal → List JVal
  | .jarr xs => xs
  | .jobj fs =>
    match (fs.map Prod.snd).find? jIsArr with
    | some (.jarr xs) => xs
    | some _ => []
    | none => if (fs.find? (fun p => p.1 == "oz")).isSome then [.jobj fs] else []
  | _ => []

/-- The per-item loop of src/app.py:271-282: each dict item is normalized
and kept when its oz field is truthy; a non-dict item raises AttributeError,
which aborts the page (second component true) but keeps the items already
collected. -/
def itemsLoop : List JVal → List DynItem × Bool
  | [] => ([], false)
  | .jobj fs :: rest =>
    let n := normalizeItem fs
    let (is, ab) := itemsLoop rest
    (if jTruthy n.oz then n :: is else is, ab)
  | _ :: _ => ([], true)

/-- Items retained from one decoded page response. -/
def pageItemsFromJson (v : JVal) : List DynItem :=
  (itemsLoop (jvalItems v)).1

/-- Outcome of the chat-completion call and json.loads for one page, at the
external AI collaborator boundary (src/app.py:247-260). -/
inductive PageOutcome where
  | jsonOk : JVal → PageOutcome
  | jsonBad : PageOutcome
  | apiErr : Nat → PageOutcome
  | exn : PageOutcome

/-- The page guard of src/app.py:244: a page is analyzed unless it strips
to nothing or its total length is below 50. -/
def pageRequested (p : String) : Bool :=
  !(pyStrip p.data).isEmpty && decide (50 ≤ p.data.length)

/-- Processing of one analyzed page (src/app.py:247-293): decoded JSON is
run through the item loop; decode failures log a warning; a 403 status logs
a warning and any other API status an error; other exceptions (including
the AttributeError of a non-dict item) log an error. -/
def processPage (idx : Nat) (out : PageOutcome) : List DynItem × List LogEntry :=
  match out with
  | .jsonOk v =>
    let (is, ab) := itemsLoop (jvalItems v)
    (is, if ab then [⟨"error", "Seite " ++ toString (idx + 1) ++ ": Unerwarteter Fehler"⟩] else [])
  | .jsonBad =>
    ([], [⟨"warning", "KI hat auf Seite " ++ toString (idx + 1) ++ " ungültiges JSON zurückgegeben."⟩])
  | .apiErr code =>
    ([], [⟨if code == 403 then "warning" else "error", "Seite " ++ toString (idx + 1) ++ ": API Fehler"⟩])
  | .exn =>
    ([], [⟨"error", "Seite " ++ toString (idx + 1) ++ ": Unerwarteter Fehler"⟩])

/-- The page loop of analyze_with_azure_ai, its AI call abstracted into the
respond oracle; besides items and log it records which page indices were
sent to the collaborator. -/
def analyzePages (respond : Nat → String → PageOutcome) : Nat → List String → List DynItem × List LogEntry × List Nat
  | _, [] => ([], [], [])
  | i, p :: ps =>
    let rest := analyzePages respond (i + 1) ps
    if pageRequested p then
      ((processPage i (respond i p)).1 ++ rest.1,
        (processPage i (respond i p)).2 ++ rest.2.1, i :: rest.2.2)
    else rest

/-- analyze_with_azure_ai (src/app.py:216-298) for an enabled AI client:
items and processing log aggregated over all pages. -/
def analyze_with_azure_ai (respond : Nat → String → PageOutcome) (pages : List String) : List DynItem × List LogEntry :=
  let r := analyzePages respond 0 pages
  (r.1, r.2.1)

/-! ## Regex fallback extraction (extract_lv_items, src/app.py:300-338)

The two patterns are compiled to deterministic scanners.  For both, the
greedy/backtracking semantics of the Python re engine collapses to a
direct reading:

for the position-code pattern
  (backslash d -twice- dot, thrice, optional dot-digits group, optional
  dot, then whitespace and the remainder), each digit block must be a
  maximal digit run of length at least two, since the character after a
  shortened run would again be a digit and could match neither the literal
  dot not the required whitespace;

for the quantity pattern (leading whitespace, a run of digits/dots/commas,
whitespace, a unit made of letters or superscript two/three, optional
trailer), every alternative of the unit group starts with a letter, so the
first (character-class) alternative succeeds exactly when some letter
follows, making the later alternatives dead; the optional trailer and the
missing end anchor mean nothing after the unit run constrains the match. -/

/-- Letter admitted by the unit character class of the quantity pattern. -/
def isUnitCh (c : Char) : Bool :=
  (65 ≤ c.toNat && c.toNat ≤ 90) || (97 ≤ c.toNat && c.toNat ≤ 122) ||
    c.toNat = 178 || c.toNat = 179

/-- Character admitted by the number group of the quantity pattern. -/
def isNumCh (c : Char) : Bool :=
  isDigitCh c || chEq c '.' || chEq c ','

/-- The tail of the position-code match after the third digit block:
optional dot-digits block, optional dot, then mandatory whitespace; returns
the extra characters captured into group 1 and the description (group 2,
the remainder after the whitespace run). -/
def ozTail (g1 : List Char) (rest : List Char) : Option (List Char × List Char) :=
  match rest with
  | '.' :: r =>
    let (d4, u) := splitDigits r
    if 2 ≤ d4.length then
      match u with
      | '.' :: u2 =>
        if (u2.headD 'x') |> pyIsSpace then
          some (g1 ++ '.' :: d4 ++ ['.'], u2.dropWhile pyIsSpace)
        else none
      | _ =>
        if (u.headD 'x') |> pyIsSpace then
          some (g1 ++ '.' :: d4, u.dropWhile pyIsSpace)
        else none
    else if d4.isEmpty && ((u.headD 'x') |> pyIsSpace) then
      some (g1 ++ ['.'], u.dropWhile pyIsSpace)
    else none
  | r =>
    if (r.headD 'x') |> pyIsSpace then
      some (g1, r.dropWhile pyIsSpace)
    else none

/-- re.match of the position-code pattern of src/app.py:302 against a line:
group 1 (the code) and group 2 (the first description chunk). -/
def matchOz (cs : List Char) : Option (List Char × List Char) :=
  let (d1, r1) := splitDigits cs
  if d1.length < 2 then none
  else
    match r1 with
    | '.' :: r2 =>
      let (d2, r3) := splitDigits r2
      if d2.length < 2 then none
      else
        match r3 with
        | '.' :: r4 =>
          let (d3, r5) := splitDigits r4
          if d3.length < 2 then none
          else ozTail (d1 ++ '.' :: d2 ++ '.' :: d3) r5
        | _ => none
    | _ => none

/-- re.search of the quantity pattern of src/app.py:303 against a line:
group 1 (the number run) and group 2 (the unit letter run). -/
def matchQty (cs : List Char) : Option (List Char × List Char) :=
  let s1 := cs.dropWhile pyIsSpace
  let num := s1.takeWhile isNumCh
  if num.isEmpty then none
  else
    let s2 := (s1.drop num.length).dropWhile pyIsSpace
    let unit := s2.takeWhile isUnitCh
    if unit.isEmpty then none else some (num, unit)

/-- Python str.split on a single separator character, keeping empty
pieces. -/
def splitOnCh (sep : Char) : List Char → List (List Char)
  | [] => [[]]
  | c :: rest =>
    if chEq c sep then [] :: splitOnCh sep rest
    else
      match splitOnCh sep rest with
      | [] => [[c]]
      | l :: ls => (c :: l) :: ls

/-- Python sep.join restricted to a one-character separator. -/
def joinCh (sep : Char) : List (List Char) → List Char
  | [] => []
  | [l] => l
  | l :: ls => l ++ sep :: joinCh sep ls

/-- A line item produced by the regex path: all fields are plain strings
and floats. -/
structure LVItem where
  oz : String
  description : String
  quantity : ℚ
  unit : String
deriving DecidableEq

/-- The cleanup applied to the captured number before float(): all dots
removed, then commas turned into dots (src/app.py:327). -/
def qtyClean (num : List Char) : List Char :=
  (num.filter (fun c => !chEq c '.')).map (fun c => if chEq c ',' then '.' else c)

/-- Flush of a pending open item kept only with positive quantity; used on
a new position-code line (src/app.py:318-319) and at end of input
(src/app.py:336-337). -/
def flushPending (items : List LVItem) : Option LVItem → List LVItem
  | some cur => if 0 < cur.quantity then items ++ [cur] else items
  | none => items

/-- One iteration of the line loop of src/app.py:312-334, over the state
(collected items, open item). -/
def lvStep (st : List LVItem × Option LVItem) (rawLine : String) : List LVItem × Option LVItem :=
  let line := pyStrip rawLine.data
  if line.isEmpty then st
  else
    match matchOz line with
    | some (g1, g2) =>
      (flushPending st.1 st.2, some ⟨⟨g1⟩, ⟨g2⟩, 0, ""⟩)
    | none =>
      match st.2 with
      | none => st
      | some cur =>
        match matchQty line with
        | some (num, unit) =>
          if !containsSub "von".data line then
            match pyFloatChars (qtyClean num) with
            | some q => (st.1 ++ [{ cur with quantity := q, unit := ⟨unit⟩ }], none)
            | none => st
          else
            if !containsSub "Datum:".data line && !containsSub "Projekt:".data line then
              (st.1, some { cur with description := cur.description ++ " " ++ ⟨line⟩ })
            else st
        | none =>
          if !containsSub "Datum:".data line && !containsSub "Projekt:".data line then
            (st.1, some { cur with description := cur.description ++ " " ++ ⟨line⟩ })
          else st

/-- extract_lv_items (src/app.py:300-338) on a full text: line loop plus
the final flush of an open item with positive quantity. -/
def extract_lv_items (text : String) : List LVItem :=
  let r := ((splitOnCh '\n' text.data).map String.mk).foldl lvStep ([], none)
  flushPending r.1 r.2

/-- extract_lv_items when handed the list of page texts: the code joins
them with newlines first (src/app.py:305-306). -/
def extract_lv_items_pages (pages : List String) : List LVItem :=
  extract_lv_items ⟨joinCh '\n' (pages.map String.data)⟩

/-! ## Catalog matching (find_best_match, src/app.py:340-368)

The fuzzy scorer (thefuzz partial_token_sort_ratio) is an external library
and enters as an explicit parameter; find_best_match only consumes the
score of each catalog description against the query.  process.extractOne
returns the first maximum over the choices in order (Python max keeps the
first maximal element) and is none only for an empty choice sequence. -/

/-- One row of the price catalog.  id and price_min/price_max are Option:
none models a NaN/absent cell, which the code coerces defensively. -/
structure PriceRow where
  id : Option Int
  description : String
  unit : String
  price_min : Option ℚ
  price_max : Option ℚ
  category : String
deriving DecidableEq

/-- The dict returned by find_best_match. -/
structure MatchResult where
  price : ℚ
  description : String
  unit : String
  score : Nat
  price_id : Int
deriving DecidableEq

/-- The no-match sentinel of src/app.py:342 and 368 (score kept as given;
the code returns the real best score at line 350, zero elsewhere). -/
def noMatchResult (score : Nat) : MatchResult :=
  ⟨0, "--- KEIN TREFFER ---", "", score, -1⟩

/-- Keep the first maximal (choice, score) pair, scanning left to right
with strict improvement, as Python max does. -/
def bestChoice (scorer : String → String → Nat) (query : String) : String × Nat → List String → String × Nat
  | best, [] => best
  | best, c :: cs =>
    bestChoice scorer query (if best.2 < scorer query c then (c, scorer query c) else best) cs

/-- process.extractOne over the choices: none only when there are no
choices. -/
def extractOne (scorer : String → String → Nat) (query : String) : List String → Option (String × Nat)
  | [] => none
  | c :: cs => some (bestChoice scorer query (c, scorer query c) cs)

/-- find_best_match (src/app.py:340-368).  On a successful match the row is
the first catalog row whose description equals the best choice; its id and
price_min are coerced defensively (sentinel -1 / 0.0 when absent).  The
none branch of find? is unreachable (the best choice is one of the
descriptions); Python would raise IndexError there. -/
def find_best_match (scorer : String → String → Nat) (item_text : String) (price_db : List PriceRow) : MatchResult :=
  if price_db.isEmpty then noMatchResult 0
  else
    match extractOne scorer item_text (price_db.map (fun r => r.description)) with
    | none => noMatchResult 0
    | some (mt, score) =>
      if score < 50 then noMatchResult score
      else
        match price_db.find? (fun r => r.description == mt) with
        | some row => ⟨row.price_min.getD 0, row.description, row.unit, score, row.id.getD (-1)⟩
        | none => noMatchResult score

/-- Confidence tier; the UI icons of src/app.py:379-381 are the tiers of
the spec (red circle = NONE, yellow = LOW, green = HIGH). -/
inductive Tier where
  | NONE : Tier
  | LOW : Tier
  | HIGH : Tier
deriving DecidableEq

/-- Status derivation of prepare_dataframe_for_display (src/app.py:379-381):
red unless the matched price is positive, then green above score 90 and
yellow otherwise. -/
def statusTier (m : MatchResult) : Tier :=
  if 0 < m.price then (if 90 < m.score then .HIGH else .LOW) else .NONE

/-- A model scorer standing in for partial_token_sort_ratio in concrete
evaluations; it agrees with the library on the pairs used here (identical
strings score 100, the library's maximal score). -/
def eqScorer (q c : String) : Nat :=
  if q == c then 100 else 0

/-! ## Tabular price-list import (tab_datenbank_verwalten, src/app.py:656-721)

Spreadsheet cells are strings, numbers, or NaN (pandas for an empty cell).
A row of the imported frame is its column-name/cell association list. -/

/-- One spreadsheet cell. -/
inductive Cell where
  | cstr : String → Cell
  | cnum : ℚ → Cell
  | cnan : Cell

/-- A spreadsheet row: column names with their cells. -/
def XRow := List (String × Cell)

/-- Indexing row[col]: none models a KeyError. -/
def cellGet (row : XRow) (k : String) : Option Cell :=
  (row.find? (fun p => p.1 == k)).map (fun p => p.2)

/-- pandas notna on a cell. -/
def cellNotNa : Cell → Bool
  | .cnan => false
  | _ => true

/-- Python truthiness of a cell value; NaN is a nonzero float and truthy. -/
def cellTruthy : Cell → Bool
  | .cstr s => !s.isEmpty
  | .cnum q => decide (q ≠ 0)
  | .cnan => true

/-- Python str() of a cell.  Numeric formatting only approximates repr of
a float; the verified rows all carry string cells. -/
def cellStr : Cell → String
  | .cstr s => s
  | .cnum q => toString q
  | .cnan => "nan"

/-- A catalog row produced by an import (the id is assigned later by the
store).  price fields are Option: none models an inserted NaN. -/
structure ImportRow where
  description : String
  unit : String
  price_min : Option ℚ
  price_max : Option ℚ
  category : String
deriving DecidableEq

/-- Price cleanup of the AI-mapped Excel path (src/app.py:678): drop the
euro sign, drop every dot, turn commas into dots, strip, then float(). -/
def aiCleanPrice (s : String) : Option ℚ :=
  pyFloatChars
    (((s.data.filter (fun c => !chEq c '€')).filter (fun c => !chEq c '.')).map
      (fun c => if chEq c ',' then '.' else c))

/-- float(price cell) on the AI-mapped path (src/app.py:676-680): strings
go through the cleanup, numbers pass, NaN passes as NaN (none); the outer
none models the raised ValueError that drops the row. -/
def aiCoercePrice : Cell → Option (Option ℚ)
  | .cstr s => (aiCleanPrice s).map some
  | .cnum q => some (some q)
  | .cnan => some none

/-- The unit expression of the AI-mapped row (src/app.py:684): empty when
no truthy unit column was mapped, str(cell) when the cell is notna, and ''
for a NaN cell; none models the KeyError of a missing column, which skips
the whole row. -/
def aiUnitField (row : XRow) : Option String → Option String
  | none => some ""
  | some cu =>
    if cu.isEmpty then some ""
    else
      match cellGet row cu with
      | none => none
      | some uc => some (if cellNotNa uc then cellStr uc else "")

/-- One row of the AI-mapped Excel loop (src/app.py:673-689): any KeyError
or failed float() skips the row (bare except). -/
def aiMapRow (colDesc colPrice : String) (colUnit : Option String) (row : XRow) : Option ImportRow :=
  match cellGet row colPrice with
  | none => none
  | some pc =>
    match aiCoercePrice pc with
    | none => none
    | some pv =>
      match cellGet row colDesc with
      | none => none
      | some dc =>
        match aiUnitField row colUnit with
        | none => none
        | some u => some ⟨cellStr dc, u, pv, pv, "AI Excel Import"⟩

/-- The AI-mapped Excel path over all rows. -/
def aiMapRows (colDesc colPrice : String) (colUnit : Option String) (rows : List XRow) : List ImportRow :=
  rows.filterMap (aiMapRow colDesc colPrice colUnit)

/-- Python a or b or ... over row.get lookups: the first truthy value, else
the value of the last lookup (src/app.py:699-703). -/
def orChain (row : XRow) : List String → Option Cell
  | [] => none
  | [k] => cellGet row k
  | k :: ks =>
    let v := cellGet row k
    match v with
    | some c => if cellTruthy c then v else orChain row ks
    | none => orChain row ks

/-- Price cleanup of the fallback Excel path (src/app.py:707): commas to
dots, drop the euro sign, strip, then float(); dots are NOT removed here.
On a numeric cell str() round-trips, so the value passes through. -/
def fallbackCoercePrice : Cell → Option ℚ
  | .cstr s =>
    pyFloatChars
      ((s.data.map (fun c => if chEq c ',' then '.' else c)).filter (fun c => !chEq c '€'))
  | .cnum q => some q
  | .cnan => none

/-- One row of the fallback Excel loop (src/app.py:697-716): requires a
truthy description alias and a notna price alias; a failed price coercion
is replaced by 0.0 and the row is still appended. -/
def fallbackMapRow (row : XRow) : Option ImportRow :=
  let desc := orChain row ["beschreibung", "description", "text", "artikel"]
  let price := orChain row ["preis", "price", "betrag", "ep"]
  let unit := orChain row ["einheit", "unit", "mengeneinheit", "me"]
  match desc, price with
  | some dc, some pc =>
    if cellTruthy dc && cellNotNa pc then
      let pv : ℚ := (fallbackCoercePrice pc).getD 0
      let u : String :=
        match unit with
        | some uc => if cellTruthy uc then cellStr uc else ""
        | none => ""
      some ⟨cellStr dc, u, some pv, some pv, "Import"⟩
    else none
  | _, _ => none

/-- The fallback Excel path over all rows (column names are already
lowercased and stripped by src/app.py:696; the alias keys are given in that
form). -/
def fallbackMapRows (rows : List XRow) : List ImportRow :=
  rows.filterMap fallbackMapRow

/-! ## Orchestration (tab_angebot_erstellen step 1, src/app.py:542-555) -/

/-- Injection of a regex-path item into the dynamic item shape (the Python
lists hold dicts of the same keys; the regex path fills them with plain
strings). -/
def lvToDyn (it : LVItem) : DynItem :=
  ⟨.jstr it.oz, .jstr it.description, it.quantity, .jstr it.unit⟩

/-- The extraction step of the orchestrator (src/app.py:542-555): with AI
requested and enabled, run the AI path and fall back to the regex path when
it yields no items (appending the fallback warning to the log); without AI,
run the regex path with an empty log. -/
def extractionStep (use_ai ai_enabled : Bool) (respond : Nat → String → PageOutcome) (pages : List String) : List DynItem × List LogEntry :=
  if use_ai && ai_enabled then
    if (analyze_with_azure_ai respond pages).1.isEmpty then
      ((extract_lv_items_pages pages).map lvToDyn,
        (analyze_with_azure_ai respond pages).2 ++
          [⟨"warning", "KI hat keine Positionen gefunden. Starte Fallback auf Regex..."⟩])
    else analyze_with_azure_ai respond pages
  else ((extract_lv_items_pages pages).map lvToDyn, [])

/-! ## Concrete instances used by the theorems -/

/-- The collaborator page response of the spec's AI-JSON-normalization
property: one item wrapped in an items field, quantity sent as the string
"3,0". -/
def c3Response : JVal :=
  .jobj [("items", .jarr [.jobj [("oz", .jstr "01.01.0010"), ("text", .jstr "Beton"),
    ("menge", .jstr "3,0"), ("einheit", .jstr "m3")]])]

/-- A page of 60 characters of which only one is non-blank. -/
def c8page : String :=
  "a" ++ ⟨List.replicate 59 ' '⟩

/-- A respond oracle whose answer is always the empty JSON array. -/
def emptyArrOracle : Nat → String → PageOutcome :=
  fun _ _ => .jsonOk (.jarr [])

/-! ## Helper lemmas -/

/-- mkRat as a quotient, for reading concrete values in theorem statements. -/
theorem mkRat_as_div (n : Int) (d : Nat) : mkRat n d = (n : ℚ) / (d : ℚ) := by
  rw [Rat.mkRat_eq_divInt, Rat.divInt_eq_div]
  norm_num

theorem pyFloatMag_nonneg {t : List Char} {q : ℚ} (h : pyFloatMag t = some q) : 0 ≤ q := by
  simp only [pyFloatMag] at h
  split at h
  · exact absurd h (by simp)
  · split at h
    · exact absurd h (by simp)
    · rw [Option.some.injEq] at h
      subst h
      exact Rat.mkRat_nonneg (Int.natCast_nonneg _) _

theorem mem_pyStrip {cs : List Char} {x : Char} (hx : x ∈ pyStrip cs) : x ∈ cs := by
  unfold pyStrip at hx
  rw [List.mem_reverse] at hx
  have hx2 := (List.dropWhile_sublist _).subset hx
  rw [List.mem_reverse] at hx2
  exact (List.dropWhile_sublist _).subset hx2

theorem pyFloatChars_nonneg {cs : List Char} (hm : '-' ∉ cs) {q : ℚ}
    (h : pyFloatChars cs = some q) : 0 ≤ q := by
  unfold pyFloatChars at h
  split at h
  · exact pyFloatMag_nonneg h
  · next r heq =>
    exact absurd (mem_pyStrip (heq ▸ List.mem_cons_self '-' r)) hm
  · exact pyFloatMag_nonneg h

theorem matchQty_num_mem {cs num unit : List Char} (h : matchQty cs = some (num, unit)) :
    ∀ c ∈ num, isNumCh c := by
  simp only [matchQty] at h
  split at h
  · exact absurd h (by simp)
  · split at h
    · exact absurd h (by simp)
    · rw [Option.some.injEq, Prod.mk.injEq] at h
      intro c hc
      exact List.mem_takeWhile_imp (h.1 ▸ hc)

theorem qtyClean_no_minus {num : List Char} (hall : ∀ c ∈ num, isNumCh c) :
    '-' ∉ qtyClean num := by
  intro hmem
  unfold qtyClean at hmem
  rw [List.mem_map] at hmem
  obtain ⟨c, hc, hfc⟩ := hmem
  rw [List.mem_filter] at hc
  by_cases hcomma : chEq c ','
  · rw [if_pos hcomma] at hfc
    exact absurd hfc (by decide)
  · rw [if_neg hcomma] at hfc
    subst hfc
    exact absurd (hall _ hc.1) (by decide)

theorem flushPending_mem {items : List LVItem} {o : Option LVItem} {it : LVItem}
    (h : it ∈ flushPending items o) : it ∈ items ∨ 0 ≤ it.quantity := by
  unfold flushPending at h
  split at h
  · next cur =>
    split at h
    · next hq =>
      rcases List.mem_append.1 h with h1 | h1
      · exact Or.inl h1
      · rw [List.mem_singleton] at h1
        exact Or.inr (h1 ▸ le_of_lt hq)
    · exact Or.inl h
  · exact Or.inl h

theorem lvStep_mem {st : List LVItem × Option LVItem} {line : String} {it : LVItem}
    (h : it ∈ (lvStep st line).1) : it ∈ st.1 ∨ 0 ≤ it.quantity := by
  simp only [lvStep] at h
  split at h
  · exact Or.inl h
  · split at h
    · exact flushPending_mem h
    · split at h
      · exact Or.inl h
      · next cur =>
        split at h
        · next num unit hqty =>
          split at h
          · split at h
            · next q hq =>
              rcases List.mem_append.1 h with h1 | h1
              · exact Or.inl h1
              · rw [List.mem_singleton] at h1
                subst h1
                exact Or.inr (pyFloatChars_nonneg (qtyClean_no_minus (matchQty_num_mem hqty)) hq)
            · exact Or.inl h
          · split at h
            · exact Or.inl h
            · exact Or.inl h
        · split at h
          · exact Or.inl h
          · exact Or.inl h

theorem lvFold_nonneg (ls : List String) (st : List LVItem × Option LVItem)
    (hst : ∀ x ∈ st.1, 0 ≤ x.quantity) :
    ∀ x ∈ (ls.foldl lvStep st).1, 0 ≤ x.quantity := by
  induction ls generalizing st with
  | nil => exact hst
  | cons l ls ih =>
    refine ih _ (fun x hx => ?_)
    rcases lvStep_mem hx with h | h
    · exact hst x h
    · exact h

theorem extract_lv_items_nonneg (text : String) : ∀ it ∈ extract_lv_items text, 0 ≤ it.quantity := by
  intro it hit
  unfold extract_lv_items at hit
  rcases flushPending_mem hit with h | h
  · exact lvFold_nonneg _ _ (by simp) it h
  · exact h

theorem bestChoice_mem (scorer : String → String → Nat) (query : String)
    (b : String × Nat) (cs : List String) :
    (bestChoice scorer query b cs).1 = b.1 ∨ (bestChoice scorer query b cs).1 ∈ cs := by
  induction cs generalizing b with
  | nil => exact Or.inl rfl
  | cons c cs ih =>
    rw [bestChoice]
    by_cases hlt : b.2 < scorer query c
    · rw [if_pos hlt]
      rcases ih (c, scorer query c) with h | h
      · right
        rw [h]
        exact List.mem_cons_self _ _
      · exact Or.inr (List.mem_cons_of_mem _ h)
    · rw [if_neg hlt]
      rcases ih b with h | h
      · exact Or.inl h
      · exact Or.inr (List.mem_cons_of_mem _ h)

theorem extractOne_mem {scorer : String → String → Nat} {query : String} {cs : List String}
    {mt : String} {s : Nat} (h : extractOne scorer query cs = some (mt, s)) : mt ∈ cs := by
  cases cs with
  | nil => exact absurd h (by simp [extractOne])
  | cons c cs =>
    rw [extractOne, Option.some.injEq] at h
    rcases bestChoice_mem scorer query (c, scorer query c) cs with h1 | h1 <;> rw [h] at h1
    · exact (show mt = c from h1) ▸ List.mem_cons_self _ _
    · exact List.mem_cons_of_mem _ h1

/-- Every call of find_best_match either yields a sub-50 no-match sentinel
or reports a catalog row verbatim (coerced id and price_min) with its score
at least 50. -/
theorem find_best_match_cases (scorer : String → String → Nat) (d : String) (db : List PriceRow) :
    (∃ s, find_best_match scorer d db = noMatchResult s ∧ s < 50) ∨
    (∃ row ∈ db, ∃ s, 50 ≤ s ∧
      find_best_match scorer d db =
        ⟨row.price_min.getD 0, row.description, row.unit, s, row.id.getD (-1)⟩) := by
  unfold find_best_match
  split
  · exact Or.inl ⟨0, rfl, by norm_num⟩
  · split
    · exact Or.inl ⟨0, rfl, by norm_num⟩
    · next mt score heq =>
      split
      · next hlt => exact Or.inl ⟨score, rfl, hlt⟩
      · next hge =>
        split
        · next row hrow =>
          exact Or.inr ⟨row, List.mem_of_find?_eq_some hrow, score, Nat.le_of_not_lt hge, rfl⟩
        · next hnone =>
          exfalso
          have hmem := extractOne_mem heq
          rw [List.mem_map] at hmem
          obtain ⟨r, hr, hrd⟩ := hmem
          have hsome : (db.find? (fun r => r.description == mt)).isSome :=
            List.find?_isSome.2 ⟨r, hr, by simp [hrd]⟩
          rw [hnone] at hsome
          exact absurd hsome (by simp)

/-- Modifying every row's price_max field arbitrarily leaves the result of
find_best_match unchanged: the matcher never reads price_max. -/
theorem find_best_match_price_max_irrelevant (scorer : String → String → Nat) (d : String)
    (db : List PriceRow) (g : PriceRow → Option ℚ) :
    find_best_match scorer d (db.map (fun r => { r with price_max := g r })) =
      find_best_match scorer d db := by
  have hempty : (db.map (fun r => { r with price_max := g r })).isEmpty = db.isEmpty := by
    cases db <;> rfl
  have hdesc : (db.map (fun r => { r with price_max := g r })).map (fun r => r.description) =
      db.map (fun r => r.description) := by
    rw [List.map_map]
    rfl
  unfold find_best_match
  rw [hempty, hdesc]
  by_cases he : db.isEmpty
  · rw [if_pos he, if_pos he]
  · rw [if_neg he, if_neg he]
    rcases hx : extractOne scorer d (db.map fun r => r.description) with _ | ⟨mt, score⟩
    · simp only [hx]
    · simp only [hx]
      by_cases hs : score < 50
      · rw [if_pos hs, if_pos hs]
      · rw [if_neg hs, if_neg hs, List.find?_map]
        have hpred : ((fun r : PriceRow => r.description == mt) ∘
            (fun r => { r with price_max := g r })) = fun r : PriceRow => r.description == mt := rfl
        rw [hpred]
        rcases hf : db.find? (fun r => r.description == mt) with _ | row
        · simp [hf]
        · simp [hf]

/-- A page index is recorded as requested by the page loop exactly when it
designates a page passing the guard. -/
theorem analyzePages_req_mem (respond : Nat → String → PageOutcome) (k : Nat) (ps : List String) (i : Nat) :
    i ∈ (analyzePages respond k ps).2.2 ↔
      ∃ j, j < ps.length ∧ i = k + j ∧ pageRequested (ps.getD j "") = true := by
  induction ps generalizing k with
  | nil => simp [analyzePages]
  | cons p ps ih =>
    rw [analyzePages]
    by_cases hreq : pageRequested p
    · simp only [hreq, if_true]
      rw [List.mem_cons, ih (k + 1)]
      constructor
      · rintro (hik | ⟨j, hj, hij, hjr⟩)
        · exact ⟨0, Nat.succ_pos _, by omega, by simpa using hreq⟩
        · exact ⟨j + 1, Nat.succ_lt_succ hj, by omega, by simpa using hjr⟩
      · rintro ⟨j, hj, hij, hjr⟩
        cases j with
        | zero => exact Or.inl (by omega)
        | succ j => exact Or.inr ⟨j, Nat.lt_of_succ_lt_succ hj, by omega, by simpa using hjr⟩
    · simp only [hreq, Bool.false_eq_true, if_false]
      rw [ih (k + 1)]
      constructor
      · rintro ⟨j, hj, hij, hjr⟩
        exact ⟨j + 1, Nat.succ_lt_succ hj, by omega, by simpa using hjr⟩
      · rintro ⟨j, hj, hij, hjr⟩
        cases j with
        | zero => exact absurd (by simpa using hjr) hreq
        | succ j => exact ⟨j, Nat.lt_of_succ_lt_succ hj, by omega, by simpa using hjr⟩

/-- With no page passing the guard, the loop emits nothing at all. -/
theorem analyzePages_skip_all (respond : Nat → String → PageOutcome) (ps : List String)
    (h : ∀ p ∈ ps, pageRequested p = false) (k : Nat) :
    analyzePages respond k ps = ([], [], []) := by
  induction ps generalizing k with
  | nil => rfl
  | cons p ps ih =>
    rw [analyzePages]
    have hp : pageRequested p = false := h p (List.mem_cons_self _ _)
    simp only [hp, Bool.false_eq_true, if_false]
    exact ih (fun q hq => h q (List.mem_cons_of_mem _ hq)) (k + 1)

/-! ## Claim theorems -/

/-- C9 (confirmed): matching any description against an empty catalog
returns the no-match sentinel with price 0.0, catalog id -1, score 0 and
the NONE tier, for every scorer, and being a total function it raises no
error. -/
theorem c9_empty_catalog_sentinel : ∀ (scorer : String → String → Nat) (d : String),
    find_best_match scorer d [] = ⟨0, "--- KEIN TREFFER ---", "", 0, -1⟩ ∧
    statusTier (find_best_match scorer d []) = Tier.NONE :=
  fun _ _ => ⟨rfl, rfl⟩

/-- C5 (counterexample): the claim that every item output by the regex
extractor has positive quantity fails: the quantity line "0 m" closes the
open item with quantity 0 and emits it. -/
theorem c5_counterexample :
    ¬ ∀ it ∈ extract_lv_items "01.01.0010 Beton\n0 m", 0 < it.quantity := by
  decide

/-- C5 (amended): every item output by the regex extractor has nonnegative
quantity (quantity lines can parse to 0 and such items are emitted), and an
item never closed by a quantity line is silently dropped: the single line
"01.01.0010 Beton" yields the empty list. -/
theorem c5_quantities_nonneg_and_unresolved_dropped :
    (∀ text : String, ∀ it ∈ extract_lv_items text, 0 ≤ it.quantity) ∧
    extract_lv_items "01.01.0010 Beton" = [] :=
  ⟨extract_lv_items_nonneg, by decide⟩

/-- C5 (witness): the amended theorem applied to the concrete emitted item
of the counterexample input. -/
theorem c5_quantities_nonneg_witness :
    (0 : ℚ) ≤ (⟨"01.01.0010", "Beton", 0, "m"⟩ : LVItem).quantity :=
  c5_quantities_nonneg_and_unresolved_dropped.1 "01.01.0010 Beton\n0 m"
    ⟨"01.01.0010", "Beton", 0, "m"⟩ (by decide)

/-- C3 (counterexample): on the spec's own example response the retained
item's quantity is 0, not 3: Python float() rejects the comma-decimal
string "3,0" and the coercion failure defaults to 0.0. -/
theorem c3_counterexample :
    (pageItemsFromJson c3Response).map (fun it => it.quantity) = [0] ∧
    (pageItemsFromJson c3Response).map (fun it => it.quantity) ≠ [3] := by
  exact ⟨by decide, by decide⟩

/-- C3 (amended): the item of the example response is retained (its oz is
non-empty) but with quantity 0.0, since float("3,0") fails and the failure
defaults to 0.0; an item with an empty oz field is dropped. -/
theorem c3_normalization_retains_and_drops :
    pageItemsFromJson c3Response =
      [⟨.jstr "01.01.0010", .jstr "Beton", 0, .jstr "m3"⟩] ∧
    pageItemsFromJson (.jobj [("oz", .jstr ""), ("text", .jstr "x")]) = [] :=
  ⟨rfl, rfl⟩

/-- C4 (code bug): on the spec's flush-rule input the extractor yields one
item with position code, description and quantity as specified, but unit
"m" instead of "m3": the first alternative of the unit group cannot cross
the digit, and the explicit m2/m3 alternatives of the pattern are
unreachable. -/
theorem c4_regex_unit_truncated :
    extract_lv_items_pages ["01.01.0010 Beton", "3,50 m3"] =
      [⟨"01.01.0010", "Beton", 7 / 2, "m"⟩] ∧ ("m" : String) ≠ "m3" := by
  have h : (7 / 2 : ℚ) = mkRat 7 2 := by
    rw [mkRat_as_div]
    norm_num
  rw [h]
  exact ⟨by decide, by decide⟩

/-- C7 (confirmed): whenever the AI path yields no items across all pages,
the orchestrator's extraction step returns exactly the regex extractor's
result on the same pages. -/
theorem c7_fallback_equals_regex (respond : Nat → String → PageOutcome) (pages : List String)
    (h : (analyze_with_azure_ai respond pages).1 = []) :
    (extractionStep true true respond pages).1 =
      (extract_lv_items_pages pages).map lvToDyn := by
  unfold extractionStep
  rw [if_pos (show (true && true) = true from rfl), h]
  rw [if_pos (show ([] : List DynItem).isEmpty = true from rfl)]

/-- C7 (witness): the fallback theorem applied to a concrete short page the
AI path skips. -/
theorem c7_fallback_equals_regex_witness :
    (extractionStep true true emptyArrOracle ["01.01.0010 Beton\n3,50 m3"]).1 =
      (extract_lv_items_pages ["01.01.0010 Beton\n3,50 m3"]).map lvToDyn :=
  c7_fallback_equals_regex emptyArrOracle ["01.01.0010 Beton\n3,50 m3"] rfl

/-- C1 (counterexample): the tier is not derived from the score alone: a
non-empty catalog whose matched row has price_min 0 yields the NONE tier at
score 100, where the claim demands HIGH. -/
theorem c1_counterexample :
    statusTier (find_best_match eqScorer "Beton"
      [⟨some 1, "Beton", "m3", some 0, some 0, "Import"⟩]) = Tier.NONE ∧
    (find_best_match eqScorer "Beton"
      [⟨some 1, "Beton", "m3", some 0, some 0, "Import"⟩]).score = 100 ∧
    Tier.NONE ≠ Tier.HIGH := by
  exact ⟨by decide, by decide, by decide⟩

/-- C1 (amended): for a non-empty catalog all of whose rows carry a
positive (coerced) price_min, the displayed tier follows the score rule of
the spec: NONE below 50, LOW between 50 and 90, HIGH above 90; on rows with
non-positive or absent price_min the tier degrades to NONE regardless of
the score. -/
theorem c1_tier_rule_with_positive_prices (scorer : String → String → Nat) (d : String)
    (db : List PriceRow) (_hne : db ≠ []) (hpos : ∀ r ∈ db, 0 < r.price_min.getD 0) :
    (statusTier (find_best_match scorer d db) = Tier.NONE ↔
      (find_best_match scorer d db).score < 50) ∧
    (statusTier (find_best_match scorer d db) = Tier.LOW ↔
      50 ≤ (find_best_match scorer d db).score ∧ (find_best_match scorer d db).score ≤ 90) ∧
    (statusTier (find_best_match scorer d db) = Tier.HIGH ↔
      90 < (find_best_match scorer d db).score) := by
  rcases find_best_match_cases scorer d db with ⟨s, hm, hs⟩ | ⟨row, hrow, s, hs, hm⟩
  · rw [hm]
    have ht : statusTier (noMatchResult s) = Tier.NONE := by
      simp [statusTier, noMatchResult]
    rw [ht]
    have hscore : (noMatchResult s).score = s := rfl
    rw [hscore]
    exact ⟨⟨fun _ => hs, fun _ => rfl⟩,
      ⟨fun h => absurd h (by decide), fun h => absurd h (by omega)⟩,
      ⟨fun h => absurd h (by decide), fun h => absurd h (by omega)⟩⟩
  · rw [hm]
    have hsc : (⟨row.price_min.getD 0, row.description, row.unit, s,
        row.id.getD (-1)⟩ : MatchResult).score = s := rfl
    rw [hsc]
    have hp : 0 < row.price_min.getD 0 := hpos row hrow
    by_cases h90 : 90 < s
    · have ht : statusTier ⟨row.price_min.getD 0, row.description, row.unit, s,
          row.id.getD (-1)⟩ = Tier.HIGH := by
        simp [statusTier, hp, h90]
      rw [ht]
      exact ⟨⟨fun h => absurd h (by decide), fun h => absurd h (by omega)⟩,
        ⟨fun h => absurd h (by decide), fun h => absurd h (by omega)⟩,
        ⟨fun _ => h90, fun _ => rfl⟩⟩
    · have ht : statusTier ⟨row.price_min.getD 0, row.description, row.unit, s,
          row.id.getD (-1)⟩ = Tier.LOW := by
        simp [statusTier, hp, h90]
      rw [ht]
      exact ⟨⟨fun h => absurd h (by decide), fun h => absurd h (by omega)⟩,
        ⟨fun _ => ⟨hs, by omega⟩, fun _ => rfl⟩,
        ⟨fun h => absurd h (by decide), fun h => absurd h h90⟩⟩

/-- C1 (witness): the amended rule applied to a one-row positive-price
catalog at score 100. -/
theorem c1_tier_rule_witness :
    statusTier (find_best_match eqScorer "Beton"
      [⟨some 1, "Beton", "m3", some (mkRat 10 1), some (mkRat 12 1), "Import"⟩]) = Tier.HIGH :=
  (c1_tier_rule_with_positive_prices eqScorer "Beton"
    [⟨some 1, "Beton", "m3", some (mkRat 10 1), some (mkRat 12 1), "Import"⟩]
    (by decide) (by decide)).2.2.mpr (by decide)

/-- C2 (counterexample): the invariant fails on a matched row with price_min
0 but a valid id: the returned price is 0 while the catalog id is 7. -/
theorem c2_counterexample :
    ¬ (0 < (find_best_match eqScorer "Beton"
        [⟨some 7, "Beton", "m3", some 0, none, "Import"⟩]).price ↔
       (find_best_match eqScorer "Beton"
        [⟨some 7, "Beton", "m3", some 0, none, "Import"⟩]).price_id ≠ -1) := by
  decide

/-- C2 (amended): for catalogs all of whose rows carry a coerced id other
than -1 and a positive coerced price_min, the returned MatchedItem
satisfies the invariant price positive iff catalog id distinct from -1; in
particular the no-match sentinel has price 0.0 and id -1. -/
theorem c2_price_catalog_link (scorer : String → String → Nat) (d : String)
    (db : List PriceRow) (hid : ∀ r ∈ db, r.id.getD (-1) ≠ -1)
    (hpos : ∀ r ∈ db, 0 < r.price_min.getD 0) :
    (0 < (find_best_match scorer d db).price ↔
      (find_best_match scorer d db).price_id ≠ -1) := by
  rcases find_best_match_cases scorer d db with ⟨s, hm, _⟩ | ⟨row, hrow, s, _, hm⟩
  · rw [hm]
    constructor
    · intro h
      exact absurd h (lt_irrefl 0)
    · intro h
      exact absurd rfl h
  · rw [hm]
    exact ⟨fun _ => hid row hrow, fun _ => hpos row hrow⟩

/-- C2 (witness): the amended invariant applied to a clean one-row
catalog. -/
theorem c2_price_catalog_link_witness :
    (find_best_match eqScorer "Beton"
      [⟨some 3, "Beton", "m3", some (mkRat 5 1), none, "Import"⟩]).price_id ≠ -1 :=
  (c2_price_catalog_link eqScorer "Beton"
    [⟨some 3, "Beton", "m3", some (mkRat 5 1), none, "Import"⟩]
    (by decide) (by decide)).mp (by decide)

/-- C10 (confirmed): when the catalog is non-empty and the best choice
scores at least 50, the result copies the first catalog row (in catalog
order, the semantics of find?) whose description equals the best choice,
its price taken from price_min; and price_max never influences the result
of the matcher. -/
theorem c10_first_row_price_min (scorer : String → String → Nat) (d : String)
    (db : List PriceRow) (mt : String) (s : Nat) (row : PriceRow)
    (hne : db ≠ [])
    (hbest : extractOne scorer d (db.map (fun r => r.description)) = some (mt, s))
    (hs : 50 ≤ s)
    (hrow : db.find? (fun r => r.description == mt) = some row) :
    find_best_match scorer d db =
      ⟨row.price_min.getD 0, row.description, row.unit, s, row.id.getD (-1)⟩ ∧
    ∀ g : PriceRow → Option ℚ,
      find_best_match scorer d (db.map (fun r => { r with price_max := g r })) =
        find_best_match scorer d db := by
  refine ⟨?_, fun g => find_best_match_price_max_irrelevant scorer d db g⟩
  unfold find_best_match
  rw [if_neg (by simpa [List.isEmpty_iff] using hne)]
  simp only [hbest]
  rw [if_neg (by omega)]
  simp only [hrow]

/-- C10 (witness): two rows share the matched description; the result takes
price_min of the first one. -/
theorem c10_first_row_price_min_witness :
    find_best_match eqScorer "Beton"
      [⟨some 1, "Beton", "m3", some (mkRat 10 1), some (mkRat 99 1), "A"⟩,
       ⟨some 2, "Beton", "m2", some (mkRat 20 1), some 0, "B"⟩] =
      ⟨mkRat 10 1, "Beton", "m3", 100, 1⟩ :=
  (c10_first_row_price_min eqScorer "Beton"
    [⟨some 1, "Beton", "m3", some (mkRat 10 1), some (mkRat 99 1), "A"⟩,
     ⟨some 2, "Beton", "m2", some (mkRat 20 1), some 0, "B"⟩]
    "Beton" 100 ⟨some 1, "Beton", "m3", some (mkRat 10 1), some (mkRat 99 1), "A"⟩
    (by decide) (by decide) (by decide) (by decide)).1

/-- The page guard unfolded: the AI call is issued iff the page does not
strip to nothing and its total length is at least 50. -/
theorem pageRequested_iff (p : String) :
    pageRequested p = true ↔ pyStrip p.data ≠ [] ∧ 50 ≤ p.length := by
  rw [pageRequested, Bool.and_eq_true, Bool.not_eq_true', decide_eq_true_eq]
  rw [List.isEmpty_eq_false_iff_exists_mem]
  constructor
  · rintro ⟨⟨x, hx⟩, hlen⟩
    exact ⟨fun hnil => by simp [hnil] at hx, hlen⟩
  · rintro ⟨hne, hlen⟩
    rcases List.exists_mem_of_ne_nil _ hne with ⟨x, hx⟩
    exact ⟨⟨x, hx⟩, hlen⟩

/-- C8 (counterexample): a page of 60 characters with a single non-blank
character is sent to the collaborator although it has fewer than 50
non-blank characters, refuting the request condition as the claim words
it. -/
theorem c8_counterexample :
    ¬ (0 ∈ (analyzePages emptyArrOracle 0 [c8page]).2.2 ↔
        50 ≤ (c8page.data.filter (fun c => !pyIsSpace c)).length) := by
  decide

/-- C8 (amended): the loop issues a collaborator request for page i exactly
when the page does not strip to nothing and its total length (blanks
included) is at least 50; when no page qualifies, the run returns no items
and no log entries, not an error. -/
theorem c8_request_guard (respond : Nat → String → PageOutcome) (pages : List String) :
    (∀ i, i ∈ (analyzePages respond 0 pages).2.2 ↔
      i < pages.length ∧ pyStrip (pages.getD i "").data ≠ [] ∧
        50 ≤ (pages.getD i "").length) ∧
    ((∀ p ∈ pages, pageRequested p = false) →
      analyze_with_azure_ai respond pages = ([], [])) := by
  constructor
  · intro i
    rw [analyzePages_req_mem]
    constructor
    · rintro ⟨j, hj, hij, hjr⟩
      have hij2 : i = j := by omega
      subst hij2
      exact ⟨hj, ((pageRequested_iff _).1 hjr).1, ((pageRequested_iff _).1 hjr).2⟩
    · rintro ⟨hi, h1, h2⟩
      exact ⟨i, hi, by omega, (pageRequested_iff _).2 ⟨h1, h2⟩⟩
  · intro hall
    unfold analyze_with_azure_ai
    rw [analyzePages_skip_all respond pages hall 0]

/-- C8 (witness): a run over one short page returns empty items and log. -/
theorem c8_request_guard_witness :
    analyze_with_azure_ai emptyArrOracle ["kurz"] = ([], []) :=
  (c8_request_guard emptyArrOracle ["kurz"]).2 (by decide)

/-- C6 (counterexample): on the header-alias fallback Excel path a row
whose price string fails coercion is not dropped: it is inserted with price
0.0. -/
theorem c6_counterexample :
    fallbackMapRows [[("beschreibung", .cstr "Beton"), ("preis", .cstr "N/A")]] =
      [⟨"Beton", "", some 0, some 0, "Import"⟩] ∧
    fallbackMapRows [[("beschreibung", .cstr "Beton"), ("preis", .cstr "N/A")]] ≠ [] := by
  exact ⟨by decide, by decide⟩

/-- C6 (amended): on the AI-mapped Excel path the string "1.234,56 €"
coerces to 1234.56 and a row with uncoercible price ("N/A") is dropped, and
every price inserted by that path comes from a successful coercion; on the
fallback path a failed coercion (including "1.234,56 €", whose thousands
dot is not stripped there) yields price 0.0 and the row is inserted. -/
theorem c6_import_price_coercion :
    aiMapRows "artikel" "preis" none
      [[("artikel", .cstr "Beton"), ("preis", .cstr "1.234,56 €")]] =
      [⟨"Beton", "", some (123456 / 100), some (123456 / 100), "AI Excel Import"⟩] ∧
    aiMapRows "artikel" "preis" none
      [[("artikel", .cstr "Beton"), ("preis", .cstr "N/A")]] = [] ∧
    fallbackMapRows [[("beschreibung", .cstr "Beton"), ("preis", .cstr "1.234,56 €")]] =
      [⟨"Beton", "", some 0, some 0, "Import"⟩] ∧
    (∀ (colDesc colPrice : String) (colUnit : Option String) (rows : List XRow) (r : ImportRow),
      r ∈ aiMapRows colDesc colPrice colUnit rows →
      ∃ c : Cell, aiCoercePrice c = some r.price_min) := by
  refine ⟨?_, by decide, by decide, ?_⟩
  · have h : (123456 / 100 : ℚ) = mkRat 123456 100 := by
      rw [mkRat_as_div]
      norm_num
    rw [h]
    decide
  · intro cd cp cu rows r hr
    rw [aiMapRows, List.mem_filterMap] at hr
    obtain ⟨row, hrow, hmap⟩ := hr
    unfold aiMapRow at hmap
    split at hmap
    · exact absurd hmap (by simp)
    · next pc hpc =>
      split at hmap
      · exact absurd hmap (by simp)
      · next pv hpv =>
        split at hmap
        · exact absurd hmap (by simp)
        · next dc hdc =>
          split at hmap
          · exact absurd hmap (by simp)
          · next u hu =>
            rw [Option.some.injEq] at hmap
            subst hmap
            exact ⟨pc, hpv⟩

/-- C6 (witness): the coercion-origin conjunct applied to a concrete
inserted row. -/
theorem c6_import_price_coercion_witness :
    ∃ c : Cell, aiCoercePrice c =
      some ((⟨"Beton", "", some 0, some 0, "AI Excel Import"⟩ : ImportRow).price_min) :=
  c6_import_price_coercion.2.2.2 "artikel" "preis" none
    [[("artikel", .cstr "Beton"), ("preis", .cstr "0")]]
    ⟨"Beton", "", some 0, some 0, "AI Excel Import"⟩ (by decide)
